import Mathlib

/-!
Verification of the article-mind-ui progress-streaming subscription client
and its surrounding API/UI glue.

The embedding translates the TypeScript sources:
- `src/lib/api/sse.ts` (`subscribeToProgress`): an EventSource-driven
  subscription modelled as a step function on a subscription state,
  consuming inbound messages / transport errors / disposal requests and
  emitting the callback invocations (`onProgress`, `onError`) in order.
- `src/routes/admin/+page.svelte` (`handleProgress`): a state transformer
  on the admin screen's reactive state.
- `src/lib/components/ChatContainer.svelte` (`handleSendMessage`): the
  optimistic-update trace on the messages list.
- `src/lib/api/client.ts` (`extractErrorMessage`, `ApiClient.fetch`): the
  error-message extraction over a JSON value model.

JavaScript's `JSON.parse` of an SSE frame either yields a decoded event or
throws; a frame is therefore modelled as either a well-formed decoded
`ProgressEvent` or a malformed payload. EventSource semantics used by the
model: after `close()` no further listeners or `onerror` fire, and calling
`close()` on a closed source is a no-op.
-/

/-- Task status values, from the `ProgressEvent` interface in
`src/lib/api/sse.ts`. -/
inductive Status where
  | pending
  | running
  | completed
  | failed
  | cancelled
deriving DecidableEq

/-- One entry of the `errors` array of a progress event. -/
structure ItemError where
  item_id : String
  error : String
deriving DecidableEq

/-- Progress event sent from backend via SSE (`ProgressEvent` in
`src/lib/api/sse.ts`). -/
structure ProgressEvent where
  task_id : String
  task_type : String
  status : Status
  total_items : Nat
  processed_items : Nat
  failed_items : Nat
  current_item : Option String
  message : Option String
  errors : List ItemError
deriving DecidableEq

/-- The named SSE event channel a frame arrives on: `subscribeToProgress`
registers listeners for the named events `progress` and `complete`. -/
inductive EventChannel where
  | progress
  | complete
deriving DecidableEq

/-- The payload of an inbound frame: `JSON.parse(e.data)` either yields a
decoded event or throws (malformed). -/
inductive Payload where
  | wellFormed (e : ProgressEvent)
  | malformed
deriving DecidableEq

/-- Inputs driving one subscription: an inbound message on a named channel,
a transport-level error (EventSource `onerror`), or a call to the disposal
function returned by `subscribeToProgress`. -/
inductive SubInput where
  | message (ch : EventChannel) (p : Payload)
  | transportError
  | dispose
deriving DecidableEq

/-- Observable effects of the subscription: an `onProgress(e)` invocation,
an `onError` invocation, or the creation of an EventSource connection. -/
inductive SubOutput where
  | progressCall (e : ProgressEvent)
  | errorCall
  | openConn (url : String)
deriving DecidableEq

/-- States of one subscription. `open_` is the live EventSource; the three
closed states record why `eventSource.close()` ran: the `complete`-channel
listener's `finally`, the `onerror` handler, or the disposal function. -/
inductive SubState where
  | open_
  | closedByCompleteEvent
  | closedByError
  | closedByDisposal
deriving DecidableEq

/-- Whether the underlying EventSource has been closed. -/
def SubState.isClosed : SubState → Bool
  | .open_ => false
  | .closedByCompleteEvent => true
  | .closedByError => true
  | .closedByDisposal => true

/-- Caller-supplied configuration: whether the optional `onError` callback
was passed (`onError?.(e)` only fires when it is). -/
structure SubConfig where
  hasOnError : Bool
deriving DecidableEq

/-- One step of the subscription, translated from the handlers installed by
`subscribeToProgress` in `src/lib/api/sse.ts`:
- `progress` listener: `try JSON.parse → onProgress(data)` catch log;
- `complete` listener: `try JSON.parse → onProgress(data)` catch log,
  `finally eventSource.close()`;
- `onerror`: `onError?.(e); eventSource.close()`;
- disposal function: `eventSource.close()`.
A closed EventSource dispatches nothing and `close()` on it is a no-op. -/
def stepSubscription (cfg : SubConfig) (s : SubState) (i : SubInput) :
    SubState × List SubOutput :=
  match s with
  | .open_ =>
    match i with
    | .message .progress (.wellFormed e) => (.open_, [.progressCall e])
    | .message .progress .malformed => (.open_, [])
    | .message .complete (.wellFormed e) =>
        (.closedByCompleteEvent, [.progressCall e])
    | .message .complete .malformed => (.closedByCompleteEvent, [])
    | .transportError =>
        (.closedByError, if cfg.hasOnError then [.errorCall] else [])
    | .dispose => (.closedByDisposal, [])
  | s => (s, [])

/-- Run the subscription over a sequence of inputs in arrival order,
collecting the callback invocations in order. -/
def runSubscription (cfg : SubConfig) (s : SubState) :
    List SubInput → SubState × List SubOutput
  | [] => (s, [])
  | i :: rest =>
    let r := stepSubscription cfg s i
    let r₂ := runSubscription cfg r.1 rest
    (r₂.1, r.2 ++ r₂.2)

/-- Default API base URL from `src/lib/api/client.ts`
(`import.meta.env.VITE_API_BASE_URL || 'http://localhost:8000'`). -/
def API_BASE_URL : String := "http://localhost:8000"

/-- The per-task progress URL built by `subscribeToProgress`. -/
def progressStreamUrl (taskId : String) : String :=
  API_BASE_URL ++ "/api/v1/admin/reindex/" ++ taskId ++ "/progress"

/-- The resource set up by one call to `subscribeToProgress`: the
connections it opens (one `new EventSource(url)`) and the initial state. -/
structure Subscription where
  url : String
  openedConnections : List SubOutput
  state : SubState
deriving DecidableEq

/-- Translation of the body of `subscribeToProgress` up to returning the
disposal function: build the URL, open exactly one EventSource on it. -/
def subscribeToProgress (taskId : String) : Subscription :=
  let url := progressStreamUrl taskId
  { url := url
    openedConnections := [SubOutput.openConn url]
    state := .open_ }

/-- The admin screen's reindex status enum, from
`src/routes/admin/+page.svelte`. -/
inductive ReindexStatus where
  | idle
  | running
  | success
  | error
deriving DecidableEq

/-- The reactive state of the admin reindex modal touched by
`handleProgress` (`src/routes/admin/+page.svelte`). `reindexProgress`
holds the result of `Math.round((processed_items / total_items) * 100)`,
modelled over the rationals. -/
structure AdminState where
  reindexProgress : Int
  reindexStatus : ReindexStatus
  reindexError : Option String
  reindexMessage : Option String
  errors : List ItemError
  totalArticles : Nat
  processedArticles : Nat
  isReindexing : Bool
deriving DecidableEq

/-- Translation of `handleProgress` from `src/routes/admin/+page.svelte`:
update the percentage when `total_items > 0`, overwrite the message
(`event.message ?? ...` default text), replace the errors list when
non-empty, then branch on terminal statuses. The `setTimeout` auto-close
three seconds after success is outside the model (real time). -/
def handleProgress (event : ProgressEvent) (s : AdminState) : AdminState :=
  let s :=
    if event.total_items > 0 then
      { s with
        reindexProgress :=
          round (((event.processed_items : ℚ) / (event.total_items : ℚ)) * 100)
        processedArticles := event.processed_items
        totalArticles := event.total_items }
    else s
  let s :=
    { s with
      reindexMessage :=
        some (event.message.getD
          ("Processed " ++ toString event.processed_items ++ " of "
            ++ toString event.total_items ++ " articles")) }
  let s :=
    if event.errors.length > 0 then { s with errors := event.errors } else s
  match event.status with
  | .completed =>
      { s with
        reindexStatus := .success
        reindexMessage :=
          some ("Completed! " ++ toString event.processed_items
            ++ " articles reindexed."
            ++ (if event.failed_items > 0 then
                  " (" ++ toString event.failed_items ++ " failed)"
                else ""))
        isReindexing := false }
  | .failed =>
      { s with
        reindexStatus := .error
        reindexError := some (event.message.getD ("Reindex failed"))
        reindexMessage := none
        isReindexing := false }
  | .cancelled =>
      { s with
        reindexStatus := .error
        reindexError := some ("Reindex was cancelled")
        reindexMessage := none
        isReindexing := false }
  | _ => s

/-- Result of the launch endpoint (`ReindexResult` in
`src/lib/api/admin.ts`). -/
structure ReindexResult where
  task_id : String
  total_sessions : Nat
  total_articles : Nat
  progress_url : String
deriving DecidableEq

/-- The admin state right after `openReindexModal` and the successful part
of `handleReindex` (`src/routes/admin/+page.svelte`): status `running`,
progress 0, totals taken from the launch result. -/
def adminStateAfterLaunch (result : ReindexResult) : AdminState :=
  { reindexProgress := 0
    reindexStatus := .running
    reindexError := none
    reindexMessage :=
      some ("Reindexing " ++ toString result.total_articles ++ " articles...")
    errors := []
    totalArticles := result.total_articles
    processedArticles := 0
    isReindexing := true }

/-- One cited source of a chat answer (`ChatSource` in
`src/lib/api/types.ts`). -/
structure ChatSource where
  article_id : Int
  title : Option String
  url : Option String
deriving DecidableEq

/-- One chat message as rendered (`ChatMessageResponse` in
`src/lib/api/types.ts`). Roles are the strings used by the source. -/
structure ChatMessageResponse where
  id : Int
  role : String
  content : String
  sources : Option (List ChatSource)
  created_at : String
deriving DecidableEq

/-- Response of the send-message endpoint (`ChatResponse` in
`src/lib/api/types.ts`). -/
structure ChatResponse where
  message_id : Int
  content : String
  sources : List ChatSource
  created_at : String
deriving DecidableEq

/-- Whether `await sendMessage(...)` resolved or rejected. -/
inductive SendOutcome where
  | success (resp : ChatResponse)
  | failure
deriving DecidableEq

/-- Model of JavaScript's `String.prototype.trim`: strip whitespace from
both ends. -/
def jsTrim (s : String) : String :=
  String.mk
    (((s.toList.dropWhile Char.isWhitespace).reverse.dropWhile
        Char.isWhitespace).reverse)

/-- The optimistic user message built by `handleSendMessage`
(`src/lib/components/ChatContainer.svelte`): temporary id `Date.now()`,
trimmed content, current timestamp. -/
def optimisticUserMessage (now : Int) (content : String) (ts : String) :
    ChatMessageResponse :=
  { id := now
    role := "user"
    content := jsTrim content
    sources := none
    created_at := ts }

/-- The assistant message appended on success by `handleSendMessage`. -/
def assistantMessageOf (r : ChatResponse) : ChatMessageResponse :=
  { id := r.message_id
    role := "assistant"
    content := r.content
    sources := some r.sources
    created_at := r.created_at }

/-- Translation of `handleSendMessage`: the successive values taken by the
`messages` state, in render order, starting after the pre-send value
`pre`. The guard `if (!content.trim() || isSending) return` yields an
empty trace; otherwise the optimistic append happens first, then on
success one append of the assistant message, and on failure the single
assignment `messages = messages.slice(0, -1)`. -/
def handleSendMessage (pre : List ChatMessageResponse) (isSending : Bool)
    (now : Int) (content : String) (ts : String) (outcome : SendOutcome) :
    List (List ChatMessageResponse) :=
  if jsTrim content = "" || isSending then []
  else
    let appended := pre ++ [optimisticUserMessage now content ts]
    match outcome with
    | .success r => [appended, appended ++ [assistantMessageOf r]]
    | .failure => [appended, appended.dropLast]

/-- A JSON value, the possible results of `response.json()`. -/
inductive Json where
  | str (s : String)
  | num (n : Int)
  | bool (b : Bool)
  | null
  | arr (xs : List Json)
  | obj (fields : List (String × Json))

/-- JavaScript truthiness of a JSON value. -/
def isTruthy : Json → Bool
  | .str s => s ≠ ""
  | .num n => n ≠ 0
  | .bool b => b
  | .null => false
  | .arr _ => true
  | .obj _ => true

/-- Whether `typeof v === 'object'` holds for a JSON value (objects,
arrays and `null`). -/
def isTypeofObject : Json → Bool
  | .null => true
  | .arr _ => true
  | .obj _ => true
  | _ => false

/-- Whether a JSON value is `null` (`detail !== null` test). -/
def isNullJson : Json → Bool
  | .null => true
  | _ => false

/-- Field lookup in a JSON object's field list. -/
def lookupField : List (String × Json) → String → Option Json
  | [], _ => none
  | (k, v) :: rest, key => if k = key then some v else lookupField rest key

/-- The combination of the `'k' in x` test and the access `x.k`: defined
only on objects, as in the guarded uses in `extractErrorMessage`. -/
def lookupJson : Json → String → Option Json
  | .obj fs, key => lookupField fs key
  | _, _ => none

/-- JSON string escaping for `JSON.stringify` (quote, backslash and
newline; other characters pass through unchanged). -/
def escapeJsonChar (c : Char) : String :=
  if c = '\"' then "\\\""
  else if c = '\\' then "\\\\"
  else if c = '\n' then "\\n"
  else String.singleton c

/-- Escape every character of a string for `JSON.stringify`. -/
def escapeJson (s : String) : String :=
  String.join (s.toList.map escapeJsonChar)

mutual

/-- Model of `JSON.stringify` on a JSON value (compact form, keys in
order). -/
def jsonStringify : Json → String
  | .str s => "\"" ++ escapeJson s ++ "\""
  | .num n => toString n
  | .bool b => if b then "true" else "false"
  | .null => "null"
  | .arr xs => "[" ++ jsonStringifyList xs ++ "]"
  | .obj fs => "\x7b" ++ jsonStringifyFields fs ++ "\x7d"

/-- Comma-separated stringification of array elements. -/
def jsonStringifyList : List Json → String
  | [] => ""
  | [x] => jsonStringify x
  | x :: rest => jsonStringify x ++ "," ++ jsonStringifyList rest

/-- Comma-separated stringification of object fields. -/
def jsonStringifyFields : List (String × Json) → String
  | [] => ""
  | [(k, v)] => "\"" ++ escapeJson k ++ "\":" ++ jsonStringify v
  | (k, v) :: rest =>
      "\"" ++ escapeJson k ++ "\":" ++ jsonStringify v ++ ","
        ++ jsonStringifyFields rest

end

/-- Second branch of `extractErrorMessage` from `src/lib/api/client.ts`
plus the final fallback: `errorData && typeof errorData === 'object' &&
'detail' in errorData`, returning `detail` verbatim when a string and
`JSON.stringify(detail)` when `typeof detail === 'object' && detail !==
null`; in every other case the literal `'API request failed'`. -/
def detailOrFallback (errorData : Json) : String :=
  if isTruthy errorData && isTypeofObject errorData then
    match lookupJson errorData ("detail") with
    | some (.str d) => d
    | some d =>
        if isTypeofObject d && !(isNullJson d) then jsonStringify d
        else "API request failed"
    | none => "API request failed"
  else "API request failed"

/-- Translation of `extractErrorMessage` from `src/lib/api/client.ts`.
First, the guarded access to a string `error.message`: `errorData && typeof
errorData === 'object' && 'error' in errorData && errorData.error && typeof
errorData.error === 'object' && 'message' in errorData.error && typeof
errorData.error.message === 'string'`; when any of it fails, control falls
through to the `detail` handling and fallback (`detailOrFallback`). -/
def extractErrorMessage (errorData : Json) : String :=
  let branch1 : Option String :=
    if isTruthy errorData && isTypeofObject errorData then
      match lookupJson errorData ("error") with
      | some errField =>
        if isTruthy errField && isTypeofObject errField then
          match lookupJson errField ("message") with
          | some (.str m) => some m
          | _ => none
        else none
      | none => none
    else none
  match branch1 with
  | some m => m
  | none => detailOrFallback errorData

/-- The body of an HTTP response as seen by `response.json()`: either a
JSON value or a parse failure (the promise rejects). -/
inductive ResponseBody where
  | jsonBody (j : Json)
  | invalidJson

/-- The parts of a fetch `Response` that `ApiClient.fetch` consults on the
error path. -/
structure HttpResponse where
  ok : Bool
  statusText : String
  body : ResponseBody

/-- The error-path behaviour of `ApiClient.fetch`
(`src/lib/api/client.ts`): `none` when `response.ok` (the method resolves),
otherwise `some` of the message of the `Error` it throws — from
`extractErrorMessage` when the body parses as JSON, and from
`response.statusText || 'API request failed'` when parsing fails. -/
def fetchThrownMessage (r : HttpResponse) : Option String :=
  if r.ok then none
  else
    some (match r.body with
      | .jsonBody j => extractErrorMessage j
      | .invalidJson =>
          if r.statusText ≠ "" then r.statusText else "API request failed")

/-- Spec-side reading of the message precedence, written from the amended
claim: the body's `error.message` field when it is a string; otherwise the
body's `detail` field, verbatim when a string and JSON-stringified when a
non-null object (or array); otherwise the literal `'API request failed'`. -/
def errorMessageStringField (j : Json) : Option String :=
  match lookupJson j ("error") with
  | some (Json.obj fs) =>
    match lookupField fs ("message") with
    | some (Json.str m) => some m
    | _ => none
  | _ => none

/-- Spec-side reading of the `detail` fallback: verbatim when a string,
JSON-stringified when a non-null object or array, absent otherwise. -/
def detailFieldMessage (j : Json) : Option String :=
  match lookupJson j ("detail") with
  | some (Json.str d) => some d
  | some (Json.obj fs) => some (jsonStringify (Json.obj fs))
  | some (Json.arr xs) => some (jsonStringify (Json.arr xs))
  | _ => none

/-- Spec-side error-message precedence chain, from the amended claim: the
`error.message` string field first, else the `detail` reading, else the
literal fallback. -/
def extractErrorMessageSpec (j : Json) : String :=
  (errorMessageStringField j).getD
    ((detailFieldMessage j).getD ("API request failed"))

/-- Shorthand for a well-formed frame arriving on the `progress` channel. -/
def progressMsg (e : ProgressEvent) : SubInput :=
  SubInput.message .progress (.wellFormed e)

/-- A closed EventSource dispatches nothing on any input. -/
theorem stepSubscription_of_closed (cfg : SubConfig) (s : SubState)
    (i : SubInput) (h : s.isClosed = true) :
    stepSubscription cfg s i = (s, []) := by
  cases s <;> simp_all [SubState.isClosed, stepSubscription]

/-- A closed EventSource stays closed and silent over any input sequence. -/
theorem runSubscription_of_closed (cfg : SubConfig) (s : SubState)
    (is : List SubInput) (h : s.isClosed = true) :
    runSubscription cfg s is = (s, []) := by
  induction is with
  | nil => rfl
  | cons i rest ih =>
    simp [runSubscription, stepSubscription_of_closed cfg s i h, ih]

/-- Runs compose over concatenation of input sequences. -/
theorem runSubscription_append (cfg : SubConfig) (s : SubState)
    (xs ys : List SubInput) :
    runSubscription cfg s (xs ++ ys) =
      ((runSubscription cfg (runSubscription cfg s xs).1 ys).1,
        (runSubscription cfg s xs).2
          ++ (runSubscription cfg (runSubscription cfg s xs).1 ys).2) := by
  induction xs generalizing s with
  | nil => simp [runSubscription]
  | cons i rest ih => simp [runSubscription, ih]

/-- Well-formed `progress`-channel frames keep the subscription open and
produce one `onProgress` call each, in order. -/
theorem runSubscription_progress_frames (cfg : SubConfig)
    (es : List ProgressEvent) :
    runSubscription cfg .open_ (es.map progressMsg)
      = (.open_, es.map SubOutput.progressCall) := by
  induction es with
  | nil => rfl
  | cons e rest ih =>
    simp [runSubscription, stepSubscription, progressMsg, ih]

/-- C1: for every sequence of well-formed events delivered while the
subscription is open — any number of `progress`-channel frames, optionally
followed by one `complete`-channel frame — `onProgress` is invoked exactly
once per event, in arrival order, with no reordering, batching or drops. -/
theorem sse_onProgress_once_per_event_in_order (cfg : SubConfig)
    (es : List ProgressEvent) (last : ProgressEvent) :
    (runSubscription cfg .open_ (es.map progressMsg)).2
      = es.map SubOutput.progressCall
    ∧ (runSubscription cfg .open_
        (es.map progressMsg
          ++ [SubInput.message .complete (.wellFormed last)])).2
      = (es ++ [last]).map SubOutput.progressCall := by
  constructor
  · rw [runSubscription_progress_frames]
  · rw [runSubscription_append, runSubscription_progress_frames]
    simp [runSubscription, stepSubscription]

/-- The first stream event of the admin reindex scenario: `running`,
3 of 10 items processed. -/
def sampleRunningEvent : ProgressEvent :=
  { task_id := "task-42"
    task_type := "reindex"
    status := .running
    total_items := 10
    processed_items := 3
    failed_items := 0
    current_item := none
    message := none
    errors := [] }

/-- C2 counterexample: a malformed frame on the `complete` named event does
terminate the subscription — its listener's `finally` closes the
EventSource even when `JSON.parse` throws — so a well-formed event arriving
afterwards is not delivered, contradicting the claim for `complete`-carried
malformed messages. -/
theorem sse_malformed_complete_event_closes_subscription :
    runSubscription ⟨true⟩ .open_
      [SubInput.message .complete .malformed, progressMsg sampleRunningEvent]
      = (.closedByCompleteEvent, [])
    ∧ SubState.closedByCompleteEvent ≠ SubState.open_ := by
  exact ⟨rfl, by decide⟩

/-- C2 amended: a malformed frame never invokes `onProgress` and never
throws into caller code. On the `progress` channel it is dropped and the
subscription stays open, with well-formed events before and after it still
delivered in order; on the `complete` channel it additionally closes the
subscription, so events before it are delivered but events after it are
dropped. -/
theorem sse_malformed_event_dropped_without_callback (cfg : SubConfig)
    (es₁ es₂ : List ProgressEvent) (rest : List SubInput) :
    runSubscription cfg .open_
      (es₁.map progressMsg ++ [SubInput.message .progress .malformed]
        ++ es₂.map progressMsg)
      = (.open_, (es₁ ++ es₂).map SubOutput.progressCall)
    ∧ runSubscription cfg .open_
        (es₁.map progressMsg ++ [SubInput.message .complete .malformed]
          ++ rest)
      = (.closedByCompleteEvent, es₁.map SubOutput.progressCall) := by
  constructor
  · rw [runSubscription_append, runSubscription_append,
      runSubscription_progress_frames]
    simp [runSubscription, stepSubscription, runSubscription_progress_frames]
  · rw [runSubscription_append, runSubscription_append,
      runSubscription_progress_frames]
    simp [runSubscription, stepSubscription,
      runSubscription_of_closed cfg .closedByCompleteEvent rest rfl]

/-- An event carrying a terminal status (`completed`) that arrives on the
`progress` named event rather than on `complete`. -/
def terminalStatusProgressFrame : ProgressEvent :=
  { task_id := "task-42"
    task_type := "reindex"
    status := .completed
    total_items := 10
    processed_items := 10
    failed_items := 0
    current_item := none
    message := none
    errors := [] }

/-- C3 counterexample: an event whose `status` is the terminal value
`completed`, delivered on the `progress` named event, is handed to
`onProgress` but the subscription stays open — the code closes only in the
`complete`-channel listener and never inspects the `status` field. -/
theorem sse_terminal_status_on_progress_channel_leaves_open :
    runSubscription ⟨true⟩ .open_ [progressMsg terminalStatusProgressFrame]
      = (.open_, [SubOutput.progressCall terminalStatusProgressFrame])
    ∧ SubState.open_.isClosed = false := by
  exact ⟨rfl, rfl⟩

/-- C3 amended: the subscription closes its own connection after handling a
frame arriving on the `complete` named event — delivering it to
`onProgress` first when it parses, and closing regardless of its `status`
field or parse success — while frames on the `progress` named event never
close the connection, whatever their status. -/
theorem sse_close_triggered_by_complete_channel (cfg : SubConfig)
    (e : ProgressEvent) (p : Payload) :
    stepSubscription cfg .open_ (SubInput.message .complete (.wellFormed e))
      = (.closedByCompleteEvent, [SubOutput.progressCall e])
    ∧ stepSubscription cfg .open_ (SubInput.message .complete .malformed)
      = (.closedByCompleteEvent, [])
    ∧ (stepSubscription cfg .open_ (SubInput.message .progress p)).1
      = .open_ := by
  refine ⟨rfl, rfl, ?_⟩
  cases p <;> rfl

/-- C4: a transport error makes the subscription invoke `onError` exactly
once (when supplied, and not at all otherwise) and then close; nothing that
arrives later — in particular no reconnection attempt — produces further
callbacks, and when the error fires before any event `onProgress` is never
called and the connection ends closed. -/
theorem sse_transport_error_onError_once_then_closed (b : Bool)
    (rest : List SubInput) (es : List ProgressEvent) :
    runSubscription ⟨b⟩ .open_ (SubInput.transportError :: rest)
      = (.closedByError, if b then [SubOutput.errorCall] else [])
    ∧ runSubscription ⟨b⟩ .open_
        (es.map progressMsg ++ SubInput.transportError :: rest)
      = (.closedByError,
          es.map SubOutput.progressCall
            ++ (if b then [SubOutput.errorCall] else [])) := by
  have hclosed := runSubscription_of_closed ⟨b⟩ .closedByError rest rfl
  constructor
  · simp [runSubscription, stepSubscription, hclosed]
  · rw [runSubscription_append, runSubscription_progress_frames]
    simp [runSubscription, stepSubscription, hclosed]

/-- C5: the disposal function closes the connection immediately; every
message or transport event arriving after disposal produces zero
`onProgress` and zero `onError` invocations, and any number of additional
disposal calls is a silent no-op on the already-closed resource. -/
theorem sse_dispose_immediate_idempotent (cfg : SubConfig)
    (rest : List SubInput) (n : Nat) :
    runSubscription cfg .open_ (SubInput.dispose :: rest)
      = (.closedByDisposal, [])
    ∧ runSubscription cfg .closedByDisposal
        (List.replicate n SubInput.dispose)
      = (.closedByDisposal, []) := by
  constructor
  · simp [runSubscription, stepSubscription,
      runSubscription_of_closed cfg .closedByDisposal rest rfl]
  · exact runSubscription_of_closed cfg .closedByDisposal _ rfl

/-- C6: the subscription moves from open into exactly one of the three
closed states — by the `complete`-channel (terminal) event, by transport
error, or by disposal — and every closed state is absorbing: no subsequent
inbound message, transport event or disposal causes any transition,
`onProgress` invocation or `onError` invocation. -/
theorem sse_closed_states_absorbing (cfg : SubConfig) (i : SubInput)
    (inputs : List SubInput) (p : Payload) :
    stepSubscription cfg .closedByCompleteEvent i
      = (.closedByCompleteEvent, [])
    ∧ stepSubscription cfg .closedByError i = (.closedByError, [])
    ∧ stepSubscription cfg .closedByDisposal i = (.closedByDisposal, [])
    ∧ runSubscription cfg .closedByCompleteEvent inputs
      = (.closedByCompleteEvent, [])
    ∧ runSubscription cfg .closedByError inputs = (.closedByError, [])
    ∧ runSubscription cfg .closedByDisposal inputs = (.closedByDisposal, [])
    ∧ (stepSubscription cfg .open_ (SubInput.message .progress p)).1 = .open_
    ∧ (stepSubscription cfg .open_ (SubInput.message .complete p)).1
      = .closedByCompleteEvent
    ∧ (stepSubscription cfg .open_ SubInput.transportError).1 = .closedByError
    ∧ (stepSubscription cfg .open_ SubInput.dispose).1 = .closedByDisposal := by
  refine ⟨rfl, rfl, rfl,
    runSubscription_of_closed cfg .closedByCompleteEvent inputs rfl,
    runSubscription_of_closed cfg .closedByError inputs rfl,
    runSubscription_of_closed cfg .closedByDisposal inputs rfl,
    ?_, ?_, rfl, rfl⟩
  · cases p <;> rfl
  · cases p <;> rfl

/-- C7: each call to `subscribeToProgress` opens exactly one EventSource,
targeting the per-task progress URL built from the task id, and no later
step of the subscription ever opens another connection. -/
theorem sse_single_connection_per_subscribe (taskId : String)
    (cfg : SubConfig) (s : SubState) (i : SubInput) (u : String) :
    (subscribeToProgress taskId).openedConnections
      = [SubOutput.openConn (progressStreamUrl taskId)]
    ∧ (subscribeToProgress taskId).openedConnections.length = 1
    ∧ (subscribeToProgress taskId).url
      = API_BASE_URL ++ "/api/v1/admin/reindex/" ++ taskId ++ "/progress"
    ∧ SubOutput.openConn u ∉ (stepSubscription cfg s i).2 := by
  refine ⟨rfl, rfl, rfl, ?_⟩
  cases s with
  | open_ =>
    cases i with
    | message ch p => cases ch <;> cases p <;> simp [stepSubscription]
    | transportError =>
      simp only [stepSubscription]
      split <;> simp
    | dispose => simp [stepSubscription]
  | closedByCompleteEvent => simp [stepSubscription]
  | closedByError => simp [stepSubscription]
  | closedByDisposal => simp [stepSubscription]

/-- The launch result of the admin reindex scenario for task `task-42`. -/
def reindexLaunchResult : ReindexResult :=
  { task_id := "task-42"
    total_sessions := 1
    total_articles := 10
    progress_url := "/tasks/task-42/progress" }

/-- The terminal stream event of the scenario: `completed`, 10 of 10
processed, one failed item with id `a7`. -/
def completedEvent42 : ProgressEvent :=
  { task_id := "task-42"
    task_type := "reindex"
    status := .completed
    total_items := 10
    processed_items := 10
    failed_items := 1
    current_item := none
    message := none
    errors := [{ item_id := "a7", error := "timeout" }] }

/-- C8: for task `task-42`, a `running` event (3 of 10) followed by a
`completed` event (10 of 10, one failure on item `a7`) yields exactly two
`onProgress` calls in order, the connection is closed after the second, and
the displayed admin state then shows 10 of 10 articles processed with
exactly the one error whose item id is `a7`. -/
theorem sse_task42_scenario :
    runSubscription ⟨true⟩ .open_
      [progressMsg sampleRunningEvent,
        SubInput.message .complete (.wellFormed completedEvent42)]
      = (.closedByCompleteEvent,
          [SubOutput.progressCall sampleRunningEvent,
            SubOutput.progressCall completedEvent42])
    ∧ (handleProgress completedEvent42
        (handleProgress sampleRunningEvent
          (adminStateAfterLaunch reindexLaunchResult))).processedArticles = 10
    ∧ (handleProgress completedEvent42
        (handleProgress sampleRunningEvent
          (adminStateAfterLaunch reindexLaunchResult))).totalArticles = 10
    ∧ (handleProgress completedEvent42
        (handleProgress sampleRunningEvent
          (adminStateAfterLaunch reindexLaunchResult))).errors
      = [{ item_id := "a7", error := "timeout" }] := by
  exact ⟨rfl, rfl, rfl, rfl⟩

/-- C9: `handleSendMessage` appends the optimistic user message before the
send; on failure the single assignment `messages.slice(0, -1)` restores the
exact pre-send list, and every rendered value of the list is either the
pre-send or the post-append value; on success the optimistic message is
retained and the assistant response is appended after it. -/
theorem chat_optimistic_update_atomic (pre : List ChatMessageResponse)
    (now : Int) (content : String) (ts : String) (r : ChatResponse)
    (h : ¬jsTrim content = "") :
    handleSendMessage pre false now content ts .failure
      = [pre ++ [optimisticUserMessage now content ts], pre]
    ∧ (∀ l ∈ handleSendMessage pre false now content ts .failure,
        l = pre ++ [optimisticUserMessage now content ts] ∨ l = pre)
    ∧ handleSendMessage pre false now content ts (.success r)
      = [pre ++ [optimisticUserMessage now content ts],
          pre ++ [optimisticUserMessage now content ts,
            assistantMessageOf r]] := by
  refine ⟨?_, ?_, ?_⟩
  · simp [handleSendMessage, h]
  · intro l hl
    simp [handleSendMessage, h] at hl
    rcases hl with hl | hl
    · exact Or.inl hl
    · exact Or.inr hl
  · simp [handleSendMessage, h]

/-- Concrete instance of the optimistic chat update: the failure path
reverts the list to its exact (empty) pre-send value. -/
theorem chat_optimistic_update_atomic_witness :
    handleSendMessage [] false 1 ("hi") ("t") SendOutcome.failure
      = [[optimisticUserMessage 1 ("hi") ("t")], []] := by
  have h := chat_optimistic_update_atomic [] 1 ("hi") ("t")
    { message_id := 0, content := "", sources := [], created_at := "" }
    (by decide)
  simpa using h.1

/-- The `detail` handling of the source agrees with the spec-side reading
of the `detail` field. -/
theorem detailOrFallback_eq_spec (j : Json) :
    detailOrFallback j = (detailFieldMessage j).getD ("API request failed") := by
  cases j with
  | obj fs =>
    simp only [detailOrFallback, detailFieldMessage, lookupJson, isTruthy,
      isTypeofObject, Bool.and_self, if_true]
    cases h : lookupField fs ("detail") with
    | none => simp
    | some d => cases d <;> simp [isTypeofObject, isNullJson]
  | str s =>
    simp [detailOrFallback, detailFieldMessage, lookupJson, isTypeofObject]
  | num n =>
    simp [detailOrFallback, detailFieldMessage, lookupJson, isTypeofObject]
  | bool b =>
    simp [detailOrFallback, detailFieldMessage, lookupJson, isTypeofObject]
  | null =>
    simp [detailOrFallback, detailFieldMessage, lookupJson, isTruthy]
  | arr xs =>
    simp [detailOrFallback, detailFieldMessage, lookupJson, isTruthy,
      isTypeofObject]

/-- The source's `extractErrorMessage` computes exactly the spec-side
precedence chain. -/
theorem extractErrorMessage_eq_spec (j : Json) :
    extractErrorMessage j = extractErrorMessageSpec j := by
  cases j with
  | obj fs =>
    simp only [extractErrorMessage, extractErrorMessageSpec,
      errorMessageStringField, lookupJson, isTruthy, isTypeofObject,
      Bool.and_self, if_true]
    cases herr : lookupField fs ("error") with
    | none => simp [detailOrFallback_eq_spec]
    | some v =>
      cases v with
      | obj fs2 =>
        simp only [isTruthy, isTypeofObject, lookupJson, Bool.and_self,
          if_true]
        cases hmsg : lookupField fs2 ("message") with
        | none => simp [detailOrFallback_eq_spec]
        | some m => cases m <;> simp [detailOrFallback_eq_spec]
      | str s => simp [isTypeofObject, detailOrFallback_eq_spec]
      | num n => simp [isTypeofObject, detailOrFallback_eq_spec]
      | bool b => simp [isTypeofObject, isTruthy, detailOrFallback_eq_spec]
      | null => simp [isTruthy, detailOrFallback_eq_spec]
      | arr xs =>
        simp [isTruthy, isTypeofObject, lookupJson, detailOrFallback_eq_spec]
  | str s =>
    simp [extractErrorMessage, extractErrorMessageSpec,
      errorMessageStringField, detailFieldMessage, lookupJson,
      isTypeofObject, detailOrFallback_eq_spec]
  | num n =>
    simp [extractErrorMessage, extractErrorMessageSpec,
      errorMessageStringField, detailFieldMessage, lookupJson,
      isTypeofObject, detailOrFallback_eq_spec]
  | bool b =>
    simp [extractErrorMessage, extractErrorMessageSpec,
      errorMessageStringField, detailFieldMessage, lookupJson,
      isTypeofObject, detailOrFallback_eq_spec]
  | null =>
    simp [extractErrorMessage, extractErrorMessageSpec,
      errorMessageStringField, detailFieldMessage, lookupJson, isTruthy,
      detailOrFallback_eq_spec]
  | arr xs =>
    simp [extractErrorMessage, extractErrorMessageSpec,
      errorMessageStringField, detailFieldMessage, lookupJson, isTruthy,
      isTypeofObject, detailOrFallback_eq_spec]

/-- A non-OK response whose body parses as JSON but matches none of the
recognized error formats, while `statusText` is non-empty. -/
def unrecognizedErrorResponse : HttpResponse :=
  { ok := false
    statusText := "Internal Server Error"
    body := ResponseBody.jsonBody
      (Json.obj [("unknownField", Json.str ("unknown value"))]) }

/-- C10 counterexample: for a non-OK response whose body parses as JSON
with neither `error.message` nor `detail`, the thrown message is the
literal `'API request failed'`, not the non-empty `statusText` the claimed
precedence would select — `statusText` is consulted only when the body
fails to parse as JSON. -/
theorem fetch_statusText_ignored_for_parsed_body :
    fetchThrownMessage unrecognizedErrorResponse
      = some ("API request failed")
    ∧ unrecognizedErrorResponse.statusText = "Internal Server Error"
    ∧ ("API request failed" : String) ≠ "Internal Server Error" := by
  refine ⟨rfl, rfl, ?_⟩
  decide

/-- C10 amended: for every non-OK response, `ApiClient.fetch` throws and
never resolves; when the body parses as JSON the message follows the
precedence `error.message` string field, else `detail` (verbatim when a
string, JSON-stringified when a non-null object or array), else the
literal `'API request failed'`; when the body fails to parse as JSON the
message is `statusText` when non-empty and the literal otherwise. -/
theorem fetch_error_message_precedence (r : HttpResponse)
    (h : r.ok = false) :
    fetchThrownMessage r
      = some (match r.body with
          | ResponseBody.jsonBody j => extractErrorMessageSpec j
          | ResponseBody.invalidJson =>
              if r.statusText = "" then "API request failed"
              else r.statusText) := by
  unfold fetchThrownMessage
  rw [h]
  simp only [Bool.false_eq_true, if_false]
  cases r.body with
  | jsonBody j => simp [extractErrorMessage_eq_spec]
  | invalidJson =>
    by_cases hs : r.statusText = "" <;> simp [hs]

/-- Concrete instance of the amended precedence: a non-OK response with a
FastAPI-style string `detail` body throws exactly that detail text. -/
theorem fetch_error_message_precedence_witness :
    fetchThrownMessage
      { ok := false
        statusText := "Internal Server Error"
        body := ResponseBody.jsonBody
          (Json.obj [("detail", Json.str ("boom"))]) }
      = some ("boom") := by
  have h := fetch_error_message_precedence
    { ok := false
      statusText := "Internal Server Error"
      body := ResponseBody.jsonBody
        (Json.obj [("detail", Json.str ("boom"))]) }
    rfl
  simpa [extractErrorMessageSpec, errorMessageStringField, detailFieldMessage,
    lookupJson, lookupField] using h
